import Mathlib

/-!
Shallow embedding of the CHIP-8 emulator core (nexes/Chip-8), translated from
`src/lib/instruction.rs`, `src/lib/memory.rs`, `src/lib/cpu.rs` and the
`Flags` record of `src/lib/system.rs`.

Machine integers are modelled as `Nat` with explicit wrapping (`% 256`,
`% 65536`) exactly where the Rust code wraps.  Rust's default (debug)
overflow semantics are kept: an arithmetic operation that would overflow its
fixed-width type, an out-of-range array index, and `.unwrap()` on an `Err`
all abort the process; these aborts are modelled by the `RResult.panic`
outcome, while a Rust `Result::Err(String)` is `RResult.err`.
-/

/-- Outcome of a Rust computation: `ok` models `Ok`, `err` models
`Err(String)`, and `panic` models a process abort (integer over/underflow in
a debug build, slice index out of bounds, `.unwrap()` on an `Err`). -/
inductive RResult (α : Type) where
  | ok : α → RResult α
  | err : String → RResult α
  | panic : RResult α
deriving Repr

/-- True exactly on the `ok` outcome. -/
def RResult.isOk {α : Type} : RResult α → Bool
  | .ok _ => true
  | _ => false

/-- True exactly on the `panic` outcome. -/
def RResult.isPanic {α : Type} : RResult α → Bool
  | .panic => true
  | _ => false

/-- Pointwise update of a byte store, the functional rendering of a Rust
array element assignment `a[i] = v`. -/
def upd (f : Nat → Nat) (a v : Nat) : Nat → Nat :=
  fun b => if b = a then v else f b

/-- Write a list of bytes into a store at consecutive addresses starting at
`start`, the functional rendering of the copy loops in `memory.rs`. -/
def writeList (f : Nat → Nat) (start : Nat) : List Nat → (Nat → Nat)
  | [] => f
  | v :: rest => writeList (upd f start v) (start + 1) rest

/-- `u8::wrapping_sub` on byte values. -/
def wrapping_sub (a b : Nat) : Nat :=
  (a + 256 - b) % 256

/-- Decoded instruction fields, from `instruction.rs`. -/
structure Instruction where
  itype : Nat
  n : Nat
  x : Nat
  y : Nat
  kk : Nat
  nnn : Nat
deriving Repr, DecidableEq

/-- `Instruction::decode`: fixed bit-mask field extraction from the raw
16-bit word. -/
def Instruction.decode (data : Nat) : Instruction :=
  { itype := (data &&& 0xF000) >>> 12
    n := data &&& 0x000F
    x := (data &&& 0x0F00) >>> 8
    y := (data &&& 0x00F0) >>> 4
    kk := data &&& 0x00FF
    nnn := data &&& 0x0FFF }

/-- The `Flags` record of `system.rs`; `key` holds `Key::as_u8` (0–15 for
keys, 16 for `Key::NONE`, 17 for `Key::QUIT`). -/
structure Flags where
  draw : Bool
  clear : Bool
  sound : Bool
  key : Nat
deriving Repr

/-- The flags value built in `System::create`. -/
def initFlags : Flags :=
  { draw := false, clear := false, sound := false, key := 16 }

/-- The `Memory` struct of `memory.rs`: 4096 bytes of RAM, 64×32 bytes of
VRAM, a 16-entry stack of 16-bit words, and a stack pointer. -/
structure Memory where
  rom_location : Nat
  ram : Nat → Nat
  vram : Nat → Nat
  stack : Nat → Nat
  sp : Nat

/-- The 16 × 5 font byte table hard-coded in `Memory::write_font_data`. -/
def fontBytes : List Nat :=
  [0xF0, 0x90, 0x90, 0x90, 0xF0,
   0x20, 0x60, 0x20, 0x20, 0x70,
   0xF0, 0x10, 0xF0, 0x80, 0xF0,
   0xF0, 0x10, 0xF0, 0x10, 0xF0,
   0x90, 0x90, 0xF0, 0x10, 0x10,
   0xF0, 0x80, 0xF0, 0x10, 0xF0,
   0xF0, 0x80, 0xF0, 0x90, 0xF0,
   0xF0, 0x10, 0x20, 0x40, 0x40,
   0xF0, 0x90, 0xF0, 0x90, 0xF0,
   0xF0, 0x90, 0xF0, 0x10, 0xF0,
   0xF0, 0x90, 0xF0, 0x90, 0x90,
   0xE0, 0x90, 0xE0, 0x90, 0xE0,
   0xF0, 0x80, 0x80, 0x80, 0xF0,
   0xE0, 0x90, 0x90, 0x90, 0xE0,
   0xF0, 0x80, 0xF0, 0x80, 0xF0,
   0xF0, 0x80, 0xF0, 0x80, 0x80]

namespace Memory

/-- `Memory::write_font_data`: copy the font table to RAM addresses 0…79. -/
def write_font_data (m : Memory) : Memory :=
  { m with ram := writeList m.ram 0 fontBytes }

/-- `Memory::allocate`: zeroed RAM/VRAM/stack, `rom_location = 0x200`,
`sp = 0`, then the font table is written at address 0. -/
def allocate : Memory :=
  write_font_data
    { rom_location := 0x200
      ram := fun _ => 0
      vram := fun _ => 0
      stack := fun _ => 0
      sp := 0 }

/-- `Memory::write_byte`: `Err` when `location >= 0x1000`, otherwise store
the byte. -/
def write_byte (m : Memory) (location val : Nat) : RResult Memory :=
  if location ≥ 0x1000 then .err "Invalid write memory location"
  else .ok { m with ram := upd m.ram location val }

/-- `Memory::read_word`: `Err` when `loc > 0xFFF`; otherwise the code
indexes `ram[loc]` and `ram[loc + 1]`, so `loc + 1 = 0x1000` is an
out-of-bounds array index, which aborts. -/
def read_word (m : Memory) (loc : Nat) : RResult Nat :=
  if loc > 0xFFF then .err "Invalid read memory location"
  else if loc + 1 ≥ 0x1000 then .panic
  else .ok ((m.ram loc <<< 8) ||| m.ram (loc + 1))

/-- `Memory::read_byte`: `Err` when `loc > 0xFFF`, otherwise the byte. -/
def read_byte (m : Memory) (loc : Nat) : RResult Nat :=
  if loc > 0xFFF then .err "Invalid memory location"
  else .ok (m.ram loc)

/-- `Memory::clear_vram`: zero every VRAM byte. -/
def clear_vram (m : Memory) : Memory :=
  { m with vram := fun _ => 0 }

/-- `Memory::pop_stack`: `self.sp -= 1; self.stack[self.sp]`.  With `sp = 0`
the `usize` subtraction aborts; there is no error return. -/
def pop_stack (m : Memory) : RResult (Nat × Memory) :=
  if m.sp = 0 then .panic
  else .ok (m.stack (m.sp - 1), { m with sp := m.sp - 1 })

/-- `Memory::push_stack`: `self.stack[self.sp] = val; self.sp += 1`.  With
`sp = 16` the array index is out of bounds and aborts; there is no error
return. -/
def push_stack (m : Memory) (val : Nat) : RResult Memory :=
  if m.sp ≥ 16 then .panic
  else .ok { m with stack := upd m.stack m.sp val, sp := m.sp + 1 }

end Memory

/-- The `CPU` struct of `cpu.rs`: timers, index register, program counter,
stack pointer and the sixteen general registers (as a byte store). -/
structure CPU where
  dt : Nat
  st : Nat
  i : Nat
  pc : Nat
  sp : Nat
  reg : Nat → Nat

namespace CPU

/-- `CPU::init`: both timers start at 60, `pc = 0x200`, everything else 0. -/
def init : CPU :=
  { dt := 60, st := 60, i := 0, pc := 0x200, sp := 0, reg := fun _ => 0 }

/-- `CPU::register_pc`: return the current `pc` and advance it by 2 (`u16`
addition, aborting on overflow in a debug build). -/
def register_pc (c : CPU) : RResult (Nat × CPU) :=
  if c.pc + 2 < 65536 then .ok (c.pc, { c with pc := c.pc + 2 })
  else .panic

end CPU

/-- The full per-instruction machine state mutated by `CPU::execute`. -/
abbrev St := CPU × Flags × Memory

namespace CPU

/-- `opcode_0`: `00E0` sets the clear flag; `00EE` pops the stack into `pc`
and decrements the CPU stack pointer (a `u8`, aborting at 0); other `kk`
values are an error. -/
def opcode_0 (c : CPU) (instr : Instruction) (flags : Flags) (mem : Memory) :
    RResult St :=
  if instr.kk = 0xE0 then .ok (c, { flags with clear := true }, mem)
  else if instr.kk = 0xEE then
    match mem.pop_stack with
    | .ok (addr, mem2) =>
        if c.sp = 0 then .panic
        else .ok ({ c with pc := addr, sp := c.sp - 1 }, flags, mem2)
    | _ => .panic
  else .err "Unrecognized 0 opcode"

/-- `opcode_1`: jump, `pc = nnn`. -/
def opcode_1 (c : CPU) (instr : Instruction) (flags : Flags) (mem : Memory) :
    RResult St :=
  .ok ({ c with pc := instr.nnn }, flags, mem)

/-- `opcode_2`: call, push `pc`, increment the CPU stack pointer (`u8`,
aborting at 255), `pc = nnn`. -/
def opcode_2 (c : CPU) (instr : Instruction) (flags : Flags) (mem : Memory) :
    RResult St :=
  match mem.push_stack c.pc with
  | .ok mem2 =>
      if c.sp + 1 < 256 then
        .ok ({ c with sp := c.sp + 1, pc := instr.nnn }, flags, mem2)
      else .panic
  | _ => .panic

/-- `opcode_3`: skip the next instruction (`pc += 2`, `u16` checked) when
`Vx = kk`. -/
def opcode_3 (c : CPU) (instr : Instruction) (flags : Flags) (mem : Memory) :
    RResult St :=
  if c.reg instr.x = instr.kk then
    if c.pc + 2 < 65536 then .ok ({ c with pc := c.pc + 2 }, flags, mem)
    else .panic
  else .ok (c, flags, mem)

/-- `opcode_4`: skip when `Vx ≠ kk`. -/
def opcode_4 (c : CPU) (instr : Instruction) (flags : Flags) (mem : Memory) :
    RResult St :=
  if c.reg instr.x ≠ instr.kk then
    if c.pc + 2 < 65536 then .ok ({ c with pc := c.pc + 2 }, flags, mem)
    else .panic
  else .ok (c, flags, mem)

/-- `opcode_5`: skip when `Vx = Vy`.  The handler never inspects `n`: every
`5xyn` word, whatever its low nibble, executes the `5xy0` behaviour. -/
def opcode_5 (c : CPU) (instr : Instruction) (flags : Flags) (mem : Memory) :
    RResult St :=
  if c.reg instr.x = c.reg instr.y then
    if c.pc + 2 < 65536 then .ok ({ c with pc := c.pc + 2 }, flags, mem)
    else .panic
  else .ok (c, flags, mem)

/-- `opcode_6`: `Vx = kk`. -/
def opcode_6 (c : CPU) (instr : Instruction) (flags : Flags) (mem : Memory) :
    RResult St :=
  .ok ({ c with reg := upd c.reg instr.x instr.kk }, flags, mem)

/-- `opcode_7`: `Vx += kk`, a bare `u8` addition that aborts on overflow in
a debug build (the source comments `// overflow??`). -/
def opcode_7 (c : CPU) (instr : Instruction) (flags : Flags) (mem : Memory) :
    RResult St :=
  if c.reg instr.x + instr.kk < 256 then
    .ok ({ c with reg := upd c.reg instr.x (c.reg instr.x + instr.kk) },
      flags, mem)
  else .panic

/-- `opcode_8`: the arithmetic/logic family, dispatching on `n`.  The
translation keeps the source's exact read/write order: in cases 4, 5 and 7
both operands are read before `VF` is written and the stored result uses the
old operand values, while in cases 6 and E the shift re-reads `Vx` after the
`VF` write.  Case 4 adds the two registers as `u8` before widening, so the
addition itself aborts on overflow and the `sum > 255` test can never be
true. -/
def opcode_8 (c : CPU) (instr : Instruction) (flags : Flags) (mem : Memory) :
    RResult St :=
  if instr.n = 0x0 then
    .ok ({ c with reg := upd c.reg instr.x (c.reg instr.y) }, flags, mem)
  else if instr.n = 0x1 then
    .ok ({ c with reg := upd c.reg instr.x (c.reg instr.x ||| c.reg instr.y) },
      flags, mem)
  else if instr.n = 0x2 then
    .ok ({ c with reg := upd c.reg instr.x (c.reg instr.x &&& c.reg instr.y) },
      flags, mem)
  else if instr.n = 0x3 then
    .ok ({ c with reg := upd c.reg instr.x (c.reg instr.x ^^^ c.reg instr.y) },
      flags, mem)
  else if instr.n = 0x4 then
    if c.reg instr.x + c.reg instr.y < 256 then
      let sum := c.reg instr.x + c.reg instr.y
      let r1 := upd c.reg 0xF (if sum > 255 then 1 else 0)
      .ok ({ c with reg := upd r1 instr.x (sum % 256) }, flags, mem)
    else .panic
  else if instr.n = 0x5 then
    let vx := c.reg instr.x
    let vy := c.reg instr.y
    let r1 := upd c.reg 0xF (if vx > vy then 1 else 0)
    .ok ({ c with reg := upd r1 instr.x (wrapping_sub vx vy) }, flags, mem)
  else if instr.n = 0x6 then
    let r1 := upd c.reg 0xF (c.reg instr.x &&& 0x01)
    .ok ({ c with reg := upd r1 instr.x (r1 instr.x >>> 1) }, flags, mem)
  else if instr.n = 0x7 then
    let vx := c.reg instr.x
    let vy := c.reg instr.y
    let r1 := upd c.reg 0xF (if vy > vx then 1 else 0)
    .ok ({ c with reg := upd r1 instr.x (wrapping_sub vy vx) }, flags, mem)
  else if instr.n = 0xE then
    let r1 := upd c.reg 0xF (c.reg instr.x &&& 0x80)
    .ok ({ c with reg := upd r1 instr.x ((r1 instr.x <<< 1) % 256) },
      flags, mem)
  else .err "Unrecognized 8 opcode"

/-- `opcode_9`: skip when `Vx ≠ Vy`, but only for `n = 0`; any other `n` is
an error. -/
def opcode_9 (c : CPU) (instr : Instruction) (flags : Flags) (mem : Memory) :
    RResult St :=
  if instr.n = 0 then
    if c.reg instr.x ≠ c.reg instr.y then
      if c.pc + 2 < 65536 then .ok ({ c with pc := c.pc + 2 }, flags, mem)
      else .panic
    else .ok (c, flags, mem)
  else .err "Unrecognized 9 opcode"

/-- `opcode_A`: `I = nnn`. -/
def opcode_A (c : CPU) (instr : Instruction) (flags : Flags) (mem : Memory) :
    RResult St :=
  .ok ({ c with i := instr.nnn }, flags, mem)

/-- `opcode_B`: `pc = nnn + V0` (`u16` addition, checked). -/
def opcode_B (c : CPU) (instr : Instruction) (flags : Flags) (mem : Memory) :
    RResult St :=
  if instr.nnn + c.reg 0x0 < 65536 then
    .ok ({ c with pc := instr.nnn + c.reg 0x0 }, flags, mem)
  else .panic

/-- `opcode_C`: `Vx = random_byte AND kk`; `thread_rng().gen::<u8>()` is
modelled as the extra input `rnd`. -/
def opcode_C (c : CPU) (instr : Instruction) (flags : Flags) (mem : Memory)
    (rnd : Nat) : RResult St :=
  .ok ({ c with reg := upd c.reg instr.x (rnd &&& instr.kk) }, flags, mem)

/-- `opcode_D`: the draw opcode handler only raises the draw flag; it reads
no sprite bytes, writes no VRAM pixel and never touches `VF`. -/
def opcode_D (c : CPU) (instr : Instruction) (flags : Flags) (mem : Memory) :
    RResult St :=
  .ok (c, { flags with draw := true }, mem)

/-- `opcode_E`: key skips `Ex9E`/`ExA1`, comparing `Vx` with the key code
held in the flags; other `kk` values are an error. -/
def opcode_E (c : CPU) (instr : Instruction) (flags : Flags) (mem : Memory) :
    RResult St :=
  if instr.kk = 0x9E then
    if c.reg instr.x = flags.key then
      if c.pc + 2 < 65536 then .ok ({ c with pc := c.pc + 2 }, flags, mem)
      else .panic
    else .ok (c, flags, mem)
  else if instr.kk = 0xA1 then
    if c.reg instr.x ≠ flags.key then
      if c.pc + 2 < 65536 then .ok ({ c with pc := c.pc + 2 }, flags, mem)
      else .panic
    else .ok (c, flags, mem)
  else .err "Unrecognized E opcode"

/-- The `Fx55` loop body: `for loc in 0..self.reg.len()` the source writes
register `loc` to `i + loc` and calls `.unwrap()` on the result, so a
write beyond 0xFFF aborts instead of propagating the error.  Note the loop
bound is the full register file length, 16, independent of `x`. -/
def store_regs (reg : Nat → Nat) (i : Nat) (mem : Memory) :
    List Nat → RResult Memory
  | [] => .ok mem
  | loc :: rest =>
    if i + loc < 65536 then
      match mem.write_byte (i + loc) (reg loc) with
      | .ok mem2 => store_regs reg i mem2 rest
      | _ => .panic
    else .panic

/-- The `Fx65` loop body: `for loc in 0..self.reg.len()` the source loads
`i + loc` into register `loc` with `.unwrap()`, again over all 16
registers regardless of `x`. -/
def load_regs (mem : Memory) (i : Nat) (reg : Nat → Nat) :
    List Nat → RResult (Nat → Nat)
  | [] => .ok reg
  | loc :: rest =>
    if i + loc < 65536 then
      match mem.read_byte (i + loc) with
      | .ok v => load_regs mem i (upd reg loc v) rest
      | _ => .panic
    else .panic

/-- `opcode_F`: timers, key wait, index arithmetic, font address, BCD and
the register block transfers, dispatching on `kk`.  `Fx29` multiplies
`Vx * 5` in `u8` before the cast (aborting when `Vx ≥ 52`); `Fx33`
propagates `write_byte` errors with `?`; `Fx55`/`Fx65` use the loops
above. -/
def opcode_F (c : CPU) (instr : Instruction) (mem : Memory) (flags : Flags)
    : RResult St :=
  if instr.kk = 0x07 then
    .ok ({ c with reg := upd c.reg instr.x c.dt }, flags, mem)
  else if instr.kk = 0x0A then
    if flags.key < 16 then
      .ok ({ c with reg := upd c.reg instr.x flags.key }, flags, mem)
    else
      if c.pc ≥ 2 then .ok ({ c with pc := c.pc - 2 }, flags, mem)
      else .panic
  else if instr.kk = 0x15 then
    .ok ({ c with dt := c.reg instr.x }, flags, mem)
  else if instr.kk = 0x18 then
    .ok ({ c with st := c.reg instr.x }, flags, mem)
  else if instr.kk = 0x1E then
    if c.i + c.reg instr.x < 65536 then
      .ok ({ c with i := c.i + c.reg instr.x }, flags, mem)
    else .panic
  else if instr.kk = 0x29 then
    if c.reg instr.x * 5 < 256 then
      .ok ({ c with i := 0x000 + c.reg instr.x * 5 }, flags, mem)
    else .panic
  else if instr.kk = 0x33 then
    let v := c.reg instr.x
    if c.i + 2 < 65536 then
      match mem.write_byte (c.i + 2) (v % 10) with
      | .ok mem2 =>
        match mem2.write_byte (c.i + 1) (v / 10 % 10) with
        | .ok mem3 =>
          match mem3.write_byte c.i (v / 10 / 10 % 10) with
          | .ok mem4 => .ok (c, flags, mem4)
          | .err e => .err e
          | .panic => .panic
        | .err e => .err e
        | .panic => .panic
      | .err e => .err e
      | .panic => .panic
    else .panic
  else if instr.kk = 0x55 then
    match store_regs c.reg c.i mem (List.range 16) with
    | .ok mem2 => .ok (c, flags, mem2)
    | .err e => .err e
    | .panic => .panic
  else if instr.kk = 0x65 then
    match load_regs mem c.i c.reg (List.range 16) with
    | .ok r2 => .ok ({ c with reg := r2 }, flags, mem)
    | .err e => .err e
    | .panic => .panic
  else .err "Unrecognized F opcode"

/-- `CPU::execute`: dispatch on the instruction family nibble. -/
def execute (c : CPU) (instr : Instruction) (flags : Flags) (mem : Memory)
    (rnd : Nat) : RResult St :=
  if instr.itype = 0x0 then opcode_0 c instr flags mem
  else if instr.itype = 0x1 then opcode_1 c instr flags mem
  else if instr.itype = 0x2 then opcode_2 c instr flags mem
  else if instr.itype = 0x3 then opcode_3 c instr flags mem
  else if instr.itype = 0x4 then opcode_4 c instr flags mem
  else if instr.itype = 0x5 then opcode_5 c instr flags mem
  else if instr.itype = 0x6 then opcode_6 c instr flags mem
  else if instr.itype = 0x7 then opcode_7 c instr flags mem
  else if instr.itype = 0x8 then opcode_8 c instr flags mem
  else if instr.itype = 0x9 then opcode_9 c instr flags mem
  else if instr.itype = 0xA then opcode_A c instr flags mem
  else if instr.itype = 0xB then opcode_B c instr flags mem
  else if instr.itype = 0xC then opcode_C c instr flags mem rnd
  else if instr.itype = 0xD then opcode_D c instr flags mem
  else if instr.itype = 0xE then opcode_E c instr flags mem
  else if instr.itype = 0xF then opcode_F c instr mem flags
  else .err "Could not execute instruction"

end CPU

/-- Register `k` of the CPU after an `ok` execution step (9999 otherwise). -/
def regAfter (r : RResult St) (k : Nat) : Nat :=
  match r with
  | .ok (c, _, _) => c.reg k
  | _ => 9999

/-- RAM byte `a` after an `ok` execution step (9999 otherwise). -/
def ramAfter (r : RResult St) (a : Nat) : Nat :=
  match r with
  | .ok (_, _, m) => m.ram a
  | _ => 9999

/-- Program counter after an `ok` execution step (9999 otherwise). -/
def pcAfter (r : RResult St) : Nat :=
  match r with
  | .ok (c, _, _) => c.pc
  | _ => 9999

/-- Register file V0=0xFF, V1=0x01 on an otherwise fresh CPU, the operand
pair of the spec's own 8xy4 carry example. -/
def cpuC1 : CPU :=
  { CPU.init with reg := upd (upd CPU.init.reg 0 0xFF) 1 0x01 }

/-- Fresh CPU with I=0x300 and register file Vk = k + 1. -/
def cpuC5 : CPU :=
  { CPU.init with i := 0x300, reg := fun r => r + 1 }

/-- Fresh CPU with I=0, used for the Fx65 register reload. -/
def cpuC5b : CPU :=
  { CPU.init with i := 0 }

/-- Fresh CPU whose VF register holds 3. -/
def cpuC7 : CPU :=
  { CPU.init with reg := upd CPU.init.reg 0xF 3 }

/-- Fresh CPU with V0=0x81, the spec's own 8xyE example operand. -/
def cpuC8 : CPU :=
  { CPU.init with reg := upd CPU.init.reg 0 0x81 }

/-- C1: opcode 8xy4 does not implement the claimed carry semantics.  The
source adds the two registers as `u8` before widening to `u16`, so with
Vx=0xFF, Vy=0x01 the addition itself overflows and the execution aborts
instead of terminating with Vx=0x00, VF=1; moreover, whenever 8xy4 does
terminate normally (x ≠ 0xF), VF is 0 — the `sum > 255` carry branch is
unreachable. -/
theorem c1_8xy4_carry_is_dead :
    (CPU.execute cpuC1 (Instruction.decode 0x8014) initFlags Memory.allocate 0).isPanic
      = true
    ∧ ∀ (c : CPU) (flags : Flags) (mem : Memory) (rnd w : Nat),
        (Instruction.decode w).itype = 8 → (Instruction.decode w).n = 4 →
        (Instruction.decode w).x ≠ 0xF →
        (CPU.execute c (Instruction.decode w) flags mem rnd).isOk = true →
        regAfter (CPU.execute c (Instruction.decode w) flags mem rnd) 0xF = 0 := by
  constructor
  · decide
  · intro c flags mem rnd w h1 h2 h3 hok
    set instr := Instruction.decode w with hi
    by_cases hlt : c.reg instr.x + c.reg instr.y < 256
    · have h4 : ¬ (15 = instr.x) := fun hh => h3 hh.symm
      have h5 : ¬ (255 < c.reg instr.x + c.reg instr.y) := by omega
      simp [CPU.execute, CPU.opcode_8, h1, h2, hlt, regAfter, upd, h4, h5]
    · simp [CPU.execute, CPU.opcode_8, h1, h2, hlt, RResult.isOk] at hok

/-- C1 witness: the overflow abort at the spec's example operands, and the
universal part instantiated at the fresh CPU (V0 = V1 = 0) and word 0x8014,
where execution succeeds and leaves VF = 0. -/
theorem c1_8xy4_carry_is_dead_witness :
    (CPU.execute cpuC1 (Instruction.decode 0x8014) initFlags Memory.allocate 0).isPanic
      = true
    ∧ regAfter (CPU.execute CPU.init (Instruction.decode 0x8014) initFlags
        Memory.allocate 0) 0xF = 0 :=
  ⟨c1_8xy4_carry_is_dead.1,
   c1_8xy4_carry_is_dead.2 CPU.init initFlags Memory.allocate 0 0x8014
     (by decide) (by decide) (by decide) (by decide)⟩

/-- C2: executing the draw opcode Dxyn performs no sprite work at all — it
returns the CPU, the memory (hence the video buffer and VF) unchanged and
merely raises the draw flag; the XOR blit and collision flag of the claim
exist nowhere in the execution path. -/
theorem c2_draw_opcode_only_sets_flag
    (c : CPU) (instr : Instruction) (flags : Flags) (mem : Memory) (rnd : Nat)
    (h : instr.itype = 0xD) :
    CPU.execute c instr flags mem rnd
      = RResult.ok (c, { flags with draw := true }, mem) := by
  simp [CPU.execute, h, CPU.opcode_D]

/-- C2 witness: the draw opcode 0xD005 on a fresh machine (I = 0, pointing
at the glyph for 0) changes nothing but the draw flag. -/
theorem c2_draw_opcode_only_sets_flag_witness :
    CPU.execute CPU.init (Instruction.decode 0xD005) initFlags Memory.allocate 0
      = RResult.ok (CPU.init, { initFlags with draw := true }, Memory.allocate) :=
  c2_draw_opcode_only_sets_flag CPU.init (Instruction.decode 0xD005) initFlags
    Memory.allocate 0 (by decide)

/-- C3 counterexample: `pop_stack` on the fresh machine's empty stack aborts
(`usize` underflow) — it does not return a `StackUnderflow`-style error
value as the claim states. -/
theorem c3_pop_empty_aborts : Memory.allocate.pop_stack = RResult.panic := rfl

/-- C3 amended: at the 16-entry boundary both stack operations abort the
process (no typed error is ever produced), while within capacity a push
followed by a pop returns the pushed value. -/
theorem c3_stack_boundary_aborts_roundtrip_ok :
    (∀ m : Memory, m.sp = 0 → m.pop_stack = RResult.panic)
    ∧ (∀ (m : Memory) (v : Nat), 16 ≤ m.sp → m.push_stack v = RResult.panic)
    ∧ (∀ (m : Memory) (v : Nat), m.sp < 16 →
        ∃ m2 : Memory, m.push_stack v = RResult.ok m2 ∧
          ∃ m3 : Memory, m2.pop_stack = RResult.ok (v, m3)) := by
  refine ⟨?_, ?_, ?_⟩
  · intro m h
    simp [Memory.pop_stack, h]
  · intro m v h
    simp [Memory.push_stack, h]
  · intro m v h
    refine ⟨{ m with stack := upd m.stack m.sp v, sp := m.sp + 1 }, ?_, ?_⟩
    · simp [Memory.push_stack, Nat.not_le.mpr h]
    · refine ⟨{ m with stack := upd m.stack m.sp v, sp := m.sp + 1 - 1 }, ?_⟩
      simp [Memory.pop_stack, upd]

/-- C3 witness: the fresh machine's stack pointer is 0, so the first pop
aborts, and pushing 0x1234 then popping returns 0x1234. -/
theorem c3_stack_boundary_witness :
    Memory.allocate.pop_stack = RResult.panic
    ∧ ∃ m2 : Memory, Memory.allocate.push_stack 0x1234 = RResult.ok m2 ∧
        ∃ m3 : Memory, m2.pop_stack = RResult.ok (0x1234, m3) :=
  ⟨c3_stack_boundary_aborts_roundtrip_ok.1 Memory.allocate rfl,
   c3_stack_boundary_aborts_roundtrip_ok.2.2 Memory.allocate 0x1234 (by decide)⟩

/-- C4: `read_word` checks only the first byte address, so `read_word 0xFFF`
passes the check and then indexes `ram[0x1000]`, aborting instead of
returning the claimed `OutOfBounds` error; for addresses up to 0xFFE it does
return the big-endian word. -/
theorem c4_read_word_hi_byte_unchecked :
    Memory.read_word Memory.allocate 0xFFF = RResult.panic
    ∧ ∀ (m : Memory) (loc : Nat), loc ≤ 0xFFE →
        m.read_word loc = RResult.ok ((m.ram loc <<< 8) ||| m.ram (loc + 1)) := by
  refine ⟨rfl, ?_⟩
  intro m loc h
  rw [Memory.read_word, if_neg (by omega), if_neg (by omega)]

/-- C4 witness: the abort at 0xFFF, and the in-range part instantiated at
address 0 of the fresh memory, whose first two font bytes form 0xF090. -/
theorem c4_read_word_witness :
    Memory.read_word Memory.allocate 0xFFF = RResult.panic
    ∧ Memory.read_word Memory.allocate 0 = RResult.ok 0xF090 := by
  refine ⟨c4_read_word_hi_byte_unchecked.1, ?_⟩
  rw [c4_read_word_hi_byte_unchecked.2 Memory.allocate 0 (by decide)]
  exact congrArg RResult.ok (by decide)

/-- C5: the Fx55/Fx65 loops run over the whole register file, ignoring `x`.
Executing 0xF055 (x = 0) with I = 0x300 and Vk = k+1 writes memory byte
0x301 (a byte above I + x that the claim requires untouched, previously 0),
and executing 0xF065 (x = 0) with I = 0 overwrites VF (a register above Vx
that the claim requires unchanged, previously 0) with the font byte 0xF0. -/
theorem c5_fx55_fx65_copy_all_sixteen :
    ramAfter (CPU.execute cpuC5 (Instruction.decode 0xF055) initFlags
        Memory.allocate 0) 0x301 = 2
    ∧ Memory.allocate.ram 0x301 = 0
    ∧ regAfter (CPU.execute cpuC5b (Instruction.decode 0xF065) initFlags
        Memory.allocate 0) 0xF = 0xF0
    ∧ cpuC5b.reg 0xF = 0 := by
  refine ⟨?_, ?_, ?_, ?_⟩ <;> decide

/-- C6 counterexample: the first instruction executed on a fresh machine can
already change reserved memory — 0xF033 (BCD of V0 = 0 at I = 0) rewrites
RAM byte 0, which held the font byte 0xF0. -/
theorem c6_reserved_region_overwritten :
    ramAfter (CPU.execute CPU.init (Instruction.decode 0xF033) initFlags
        Memory.allocate 0) 0 ≠ Memory.allocate.ram 0 := by
  decide

/-- C6 amended: after initialization RAM bytes 0–79 hold the 16×5 glyph
table byte-exactly, but the reserved region 0x000–0x1FF is not protected
during execution: the engine happily executes 0xF033 with I = 0 and zeroes
the first font byte. -/
theorem c6_font_loaded_but_unprotected :
    (List.range 80).map Memory.allocate.ram = fontBytes
    ∧ (CPU.execute CPU.init (Instruction.decode 0xF033) initFlags
        Memory.allocate 0).isOk = true
    ∧ ramAfter (CPU.execute CPU.init (Instruction.decode 0xF033) initFlags
        Memory.allocate 0) 0 = 0
    ∧ Memory.allocate.ram 0 = 0xF0 := by
  refine ⟨?_, ?_, ?_, ?_⟩ <;> decide

/-- C7 counterexample: in 8xy6 the handler writes VF first and the shift
then re-reads Vx, so with x = 0xF and VF = 3 the final VF is 0, not the
claimed flag value `old VF AND 1 = 1`. -/
theorem c7_vf_not_written_last :
    regAfter (CPU.execute cpuC7 (Instruction.decode 0x8FF6) initFlags
        Memory.allocate 0) 0xF ≠ cpuC7.reg 0xF &&& 0x01 := by
  decide

/-- C7 amended: in all five flag-writing handlers (8xy4, 8xy5, 8xy6, 8xy7,
8xyE) VF is written before the arithmetic result, not after; when x = 0xF
the final VF is the value stored by the result assignment — for 8xy4 the
(non-aborting) sum of the old operands, for 8xy5/8xy7 the wrapped
difference of the old operands, and for 8xy6/8xyE the shift applied to the
freshly written flag, which the shift re-reads. -/
theorem c7_vf_written_first
    (c : CPU) (instr : Instruction) (flags : Flags) (mem : Memory)
    (rnd : Nat) (h8 : instr.itype = 0x8) (hx : instr.x = 0xF) :
    (instr.n = 0x4 → c.reg 0xF + c.reg instr.y < 256 →
      regAfter (CPU.execute c instr flags mem rnd) 0xF
        = c.reg 0xF + c.reg instr.y)
    ∧ (instr.n = 0x5 →
      regAfter (CPU.execute c instr flags mem rnd) 0xF
        = wrapping_sub (c.reg 0xF) (c.reg instr.y))
    ∧ (instr.n = 0x6 →
      regAfter (CPU.execute c instr flags mem rnd) 0xF
        = (c.reg 0xF &&& 0x01) >>> 1)
    ∧ (instr.n = 0x7 →
      regAfter (CPU.execute c instr flags mem rnd) 0xF
        = wrapping_sub (c.reg instr.y) (c.reg 0xF))
    ∧ (instr.n = 0xE →
      regAfter (CPU.execute c instr flags mem rnd) 0xF
        = ((c.reg 0xF &&& 0x80) <<< 1) % 256) := by
  refine ⟨?_, ?_, ?_, ?_, ?_⟩
  · intro hn hsum
    simp [CPU.execute, CPU.opcode_8, h8, hn, hx, hsum, regAfter, upd,
      Nat.mod_eq_of_lt hsum]
  · intro hn
    simp [CPU.execute, CPU.opcode_8, h8, hn, hx, regAfter, upd]
  · intro hn
    simp [CPU.execute, CPU.opcode_8, h8, hn, hx, regAfter, upd]
  · intro hn
    simp [CPU.execute, CPU.opcode_8, h8, hn, hx, regAfter, upd]
  · intro hn
    simp [CPU.execute, CPU.opcode_8, h8, hn, hx, regAfter, upd]

/-- C7 witness: all five amended cases instantiated on the CPU whose VF
holds 3 (other registers 0) — 8F24 leaves VF = 3 (the sum), 8F05 leaves
VF = 3 (the wrapped difference 3−0, where the claim's no-borrow flag would
be 1), 8FF6 leaves VF = 0, 8F07 leaves VF = 253 (the wrapped difference
0−3, where the claim's flag would be 0), and 8F0E leaves VF = 0 — each
time the stored result rather than the flag. -/
theorem c7_vf_written_first_witness :
    regAfter (CPU.execute cpuC7 (Instruction.decode 0x8F24) initFlags
        Memory.allocate 0) 0xF = 3
    ∧ regAfter (CPU.execute cpuC7 (Instruction.decode 0x8F05) initFlags
        Memory.allocate 0) 0xF = 3
    ∧ regAfter (CPU.execute cpuC7 (Instruction.decode 0x8FF6) initFlags
        Memory.allocate 0) 0xF = 0
    ∧ regAfter (CPU.execute cpuC7 (Instruction.decode 0x8F07) initFlags
        Memory.allocate 0) 0xF = 253
    ∧ regAfter (CPU.execute cpuC7 (Instruction.decode 0x8F0E) initFlags
        Memory.allocate 0) 0xF = 0 := by
  refine ⟨?_, ?_, ?_, ?_, ?_⟩
  · rw [(c7_vf_written_first cpuC7 (Instruction.decode 0x8F24) initFlags
      Memory.allocate 0 (by decide) (by decide)).1 (by decide) (by decide)]
    decide
  · rw [(c7_vf_written_first cpuC7 (Instruction.decode 0x8F05) initFlags
      Memory.allocate 0 (by decide) (by decide)).2.1 (by decide)]
    decide
  · rw [(c7_vf_written_first cpuC7 (Instruction.decode 0x8FF6) initFlags
      Memory.allocate 0 (by decide) (by decide)).2.2.1 (by decide)]
    decide
  · rw [(c7_vf_written_first cpuC7 (Instruction.decode 0x8F07) initFlags
      Memory.allocate 0 (by decide) (by decide)).2.2.2.1 (by decide)]
    decide
  · rw [(c7_vf_written_first cpuC7 (Instruction.decode 0x8F0E) initFlags
      Memory.allocate 0 (by decide) (by decide)).2.2.2.2 (by decide)]
    decide

/-- C8: opcode 8xyE stores the raw masked bit in the flag register — with
Vx = 0x81 it leaves VF = 0x80, not the claimed normalized 1, while the
shifted result Vx = 0x02 matches the claim. -/
theorem c8_8xyE_flag_not_normalized :
    regAfter (CPU.execute cpuC8 (Instruction.decode 0x800E) initFlags
        Memory.allocate 0) 0xF = 0x80
    ∧ regAfter (CPU.execute cpuC8 (Instruction.decode 0x800E) initFlags
        Memory.allocate 0) 0x0 = 0x02 := by
  constructor <;> decide

/-- C9 counterexample: the word 0x5011 (family 5, n = 1) does not fail —
the engine happily executes the 5xy0 skip on the fresh machine (V0 = V1),
advancing the program counter to 0x202. -/
theorem c9_family5_subselector_ignored :
    (CPU.execute CPU.init (Instruction.decode 0x5011) initFlags
        Memory.allocate 0).isOk = true
    ∧ pcAfter (CPU.execute CPU.init (Instruction.decode 0x5011) initFlags
        Memory.allocate 0) = 0x202 := by
  constructor <;> decide

/-- C9 amended: families 0, 8, 9, E and F do fail with the unknown-opcode
error — carrying no effect, since the error path returns no new state —
whenever the sub-selector matches no documented case, but family 5 never
inspects n: every 5xyn word, whatever its sub-selector, silently executes
the 5xy0 skip behaviour, skipping when Vx = Vy and leaving the state
unchanged otherwise. -/
theorem c9_family9_errors_family5_skips
    (c : CPU) (instr : Instruction) (flags : Flags) (mem : Memory)
    (rnd : Nat) :
    (instr.itype = 0x0 → instr.kk ≠ 0xE0 → instr.kk ≠ 0xEE →
      CPU.execute c instr flags mem rnd = RResult.err "Unrecognized 0 opcode")
    ∧ (instr.itype = 0x8 → instr.n ≠ 0x0 → instr.n ≠ 0x1 → instr.n ≠ 0x2 →
      instr.n ≠ 0x3 → instr.n ≠ 0x4 → instr.n ≠ 0x5 → instr.n ≠ 0x6 →
      instr.n ≠ 0x7 → instr.n ≠ 0xE →
      CPU.execute c instr flags mem rnd = RResult.err "Unrecognized 8 opcode")
    ∧ (instr.itype = 0x9 → instr.n ≠ 0 →
      CPU.execute c instr flags mem rnd = RResult.err "Unrecognized 9 opcode")
    ∧ (instr.itype = 0xE → instr.kk ≠ 0x9E → instr.kk ≠ 0xA1 →
      CPU.execute c instr flags mem rnd = RResult.err "Unrecognized E opcode")
    ∧ (instr.itype = 0xF → instr.kk ≠ 0x07 → instr.kk ≠ 0x0A →
      instr.kk ≠ 0x15 → instr.kk ≠ 0x18 → instr.kk ≠ 0x1E →
      instr.kk ≠ 0x29 → instr.kk ≠ 0x33 → instr.kk ≠ 0x55 →
      instr.kk ≠ 0x65 →
      CPU.execute c instr flags mem rnd = RResult.err "Unrecognized F opcode")
    ∧ (instr.itype = 0x5 → c.reg instr.x = c.reg instr.y →
      c.pc + 2 < 65536 →
      CPU.execute c instr flags mem rnd
        = RResult.ok ({ c with pc := c.pc + 2 }, flags, mem))
    ∧ (instr.itype = 0x5 → c.reg instr.x ≠ c.reg instr.y →
      CPU.execute c instr flags mem rnd = RResult.ok (c, flags, mem)) := by
  refine ⟨?_, ?_, ?_, ?_, ?_, ?_, ?_⟩
  · intro h h1 h2
    simp [CPU.execute, h, CPU.opcode_0, h1, h2]
  · intro h h0 h1 h2 h3 h4 h5 h6 h7 hE
    simp [CPU.execute, h, CPU.opcode_8, h0, h1, h2, h3, h4, h5, h6, h7, hE]
  · intro h hn
    simp [CPU.execute, h, CPU.opcode_9, hn]
  · intro h h1 h2
    simp [CPU.execute, h, CPU.opcode_E, h1, h2]
  · intro h h1 h2 h3 h4 h5 h6 h7 h8 h9
    simp [CPU.execute, h, CPU.opcode_F, h1, h2, h3, h4, h5, h6, h7, h8, h9]
  · intro h he hpc
    simp [CPU.execute, h, CPU.opcode_5, he, hpc]
  · intro h hne
    simp [CPU.execute, h, CPU.opcode_5, hne]

/-- C9 witness: the amended parts instantiated on the fresh machine at
0x0000, 0x8008, 0x9011, 0xE000 and 0xF000 (each an unknown-opcode error),
at 0x5011 with V0 = V1 (skip executed, PC advanced to 0x202), and at
0x5011 with V0 = 0xFF ≠ V1 = 0x01 (state returned unchanged). -/
theorem c9_family9_family5_witness :
    CPU.execute CPU.init (Instruction.decode 0x0000) initFlags Memory.allocate 0
      = RResult.err "Unrecognized 0 opcode"
    ∧ CPU.execute CPU.init (Instruction.decode 0x8008) initFlags Memory.allocate 0
      = RResult.err "Unrecognized 8 opcode"
    ∧ CPU.execute CPU.init (Instruction.decode 0x9011) initFlags Memory.allocate 0
      = RResult.err "Unrecognized 9 opcode"
    ∧ CPU.execute CPU.init (Instruction.decode 0xE000) initFlags Memory.allocate 0
      = RResult.err "Unrecognized E opcode"
    ∧ CPU.execute CPU.init (Instruction.decode 0xF0FF) initFlags Memory.allocate 0
      = RResult.err "Unrecognized F opcode"
    ∧ CPU.execute CPU.init (Instruction.decode 0x5011) initFlags Memory.allocate 0
      = RResult.ok ({ CPU.init with pc := 0x202 }, initFlags, Memory.allocate)
    ∧ CPU.execute cpuC1 (Instruction.decode 0x5011) initFlags Memory.allocate 0
      = RResult.ok (cpuC1, initFlags, Memory.allocate) :=
  ⟨(c9_family9_errors_family5_skips CPU.init (Instruction.decode 0x0000)
      initFlags Memory.allocate 0).1 (by decide) (by decide) (by decide),
   (c9_family9_errors_family5_skips CPU.init (Instruction.decode 0x8008)
      initFlags Memory.allocate 0).2.1 (by decide) (by decide) (by decide)
      (by decide) (by decide) (by decide) (by decide) (by decide) (by decide)
      (by decide),
   (c9_family9_errors_family5_skips CPU.init (Instruction.decode 0x9011)
      initFlags Memory.allocate 0).2.2.1 (by decide) (by decide),
   (c9_family9_errors_family5_skips CPU.init (Instruction.decode 0xE000)
      initFlags Memory.allocate 0).2.2.2.1 (by decide) (by decide) (by decide),
   (c9_family9_errors_family5_skips CPU.init (Instruction.decode 0xF0FF)
      initFlags Memory.allocate 0).2.2.2.2.1 (by decide) (by decide)
      (by decide) (by decide) (by decide) (by decide) (by decide) (by decide)
      (by decide) (by decide),
   (c9_family9_errors_family5_skips CPU.init (Instruction.decode 0x5011)
      initFlags Memory.allocate 0).2.2.2.2.2.1 (by decide) rfl (by decide),
   (c9_family9_errors_family5_skips cpuC1 (Instruction.decode 0x5011)
      initFlags Memory.allocate 0).2.2.2.2.2.2 (by decide) (by decide)⟩

/-- C10: immediately after `CPU::init` both timers hold 60 (not 0), the
program counter is 0x200, the index register and stack pointer are 0, and
every general register is 0. -/
theorem c10_init_state :
    CPU.init.dt = 60 ∧ CPU.init.st = 60 ∧ CPU.init.pc = 0x200 ∧ CPU.init.i = 0
      ∧ CPU.init.sp = 0 ∧ ∀ k : Nat, CPU.init.reg k = 0 :=
  ⟨rfl, rfl, rfl, rfl, rfl, fun _ => rfl⟩
